import Mathlib

/-!
Verification of the binary decoding layer of the SynthPresetDump repository
(`src/services/binary_parser.py`, `src/services/program_data.py`,
`src/services/enums.py`) against its natural-language specification.

The Python byte buffer is modelled as `List Nat` (each element a byte value
0..255; the definitions read bytes as given, so out-of-range entries simply
model no real input).  Python exceptions raised by the decoder are modelled by
an explicit error type; decoded ASCII strings are kept as byte lists.  Python
`struct.unpack` with a fixed little-endian format string is modelled by a token
list transcribed character for character from the format string on line 49 of
`binary_parser.py`, a total-size function and a sequential reader;
`struct.unpack` succeeds exactly when the buffer length equals the format's
total size, and `parse_binary` turns the `struct.error` into its
"Failed to parse binary data" `ValueError` (the spec's `MalformedLayout`).
-/

set_option maxRecDepth 100000

/-- Failure modes of the decoder, following §7 of the spec.
`tooShort` is the "Data too short" `ValueError` (line 45), `malformedLayout`
the "Failed to parse binary data" `ValueError` raised from the `struct.error`
handler (lines 50-51), `asciiError` a `UnicodeDecodeError` escaping from
`bytes.decode("ascii")`, `unknownEnumValue` the `ValueError` raised by an
`IntEnum` constructor on an out-of-domain code, `indexError` an out-of-range
(or wrongly-typed) access into the unpacked result tuple, and `noEntries` the
"No program files found in archive" `ValueError` (line 30). -/
inductive ParseError where
  | tooShort
  | malformedLayout
  | asciiError
  | unknownEnumValue (raw : Nat)
  | indexError
  | noEntries
  deriving DecidableEq, Repr

/-- One token of a Python `struct` format string: `.s n` is an `ns` field
(`n` raw bytes), `.b` is `B` (unsigned byte), `.h` is `H` (unsigned 16-bit
little-endian under the leading `<`). -/
inductive Tok where
  | s (n : Nat)
  | b
  | h
  deriving DecidableEq, Repr

/-- A value produced by unpacking: a byte string or an unsigned integer. -/
inductive StructVal where
  | str (bs : List Nat)
  | num (n : Nat)
  deriving DecidableEq, Repr

/-- Byte width of one format token. -/
def tokSize : Tok → Nat
  | .s n => n
  | .b => 1
  | .h => 2

/-- Total byte size of a format (Python `struct.calcsize`; the `<` prefix
means no alignment padding). -/
def structSize (f : List Tok) : Nat := (f.map tokSize).sum

/-- The format string of `struct.unpack` on line 49 of `binary_parser.py`,
transcribed token for token:
`<4s12sBBBHBBBHHBBHHBBHBBBBHHHHHHHHBBHHBBHHHHHBBBBHHHHBBBBHBHBBBBBBBHHBBBBBBBHHBHBBBBBHHHHHBBBHHB4s`. -/
def structFmt : List Tok :=
  [Tok.s 4, Tok.s 12, Tok.b, Tok.b, Tok.b, Tok.h, Tok.b, Tok.b, Tok.b, Tok.h, Tok.h, Tok.b,
   Tok.b, Tok.h, Tok.h, Tok.b, Tok.b, Tok.h, Tok.b, Tok.b, Tok.b, Tok.b, Tok.h, Tok.h, Tok.h,
   Tok.h, Tok.h, Tok.h, Tok.h, Tok.h, Tok.b, Tok.b, Tok.h, Tok.h, Tok.b, Tok.b, Tok.h, Tok.h,
   Tok.h, Tok.h, Tok.h, Tok.b, Tok.b, Tok.b, Tok.b, Tok.h, Tok.h, Tok.h, Tok.h, Tok.b, Tok.b,
   Tok.b, Tok.b, Tok.h, Tok.b, Tok.h, Tok.b, Tok.b, Tok.b, Tok.b, Tok.b, Tok.b, Tok.b, Tok.h,
   Tok.h, Tok.b, Tok.b, Tok.b, Tok.b, Tok.b, Tok.b, Tok.b, Tok.h, Tok.h, Tok.b, Tok.h, Tok.b,
   Tok.b, Tok.b, Tok.b, Tok.b, Tok.h, Tok.h, Tok.h, Tok.h, Tok.h, Tok.b, Tok.b, Tok.b, Tok.h,
   Tok.h, Tok.b, Tok.s 4]

/-- Sequential little-endian reader for one unpack pass, starting at byte
offset `off` of the buffer. -/
def unpackFrom (bs : List Nat) : List Tok → Nat → List StructVal
  | [], _ => []
  | .s n :: ts, off => .str ((bs.drop off).take n) :: unpackFrom bs ts (off + n)
  | .b :: ts, off => .num (bs.getD off 0) :: unpackFrom bs ts (off + 1)
  | .h :: ts, off =>
      .num (bs.getD off 0 + 256 * bs.getD (off + 1) 0) :: unpackFrom bs ts (off + 2)

/-- Python `struct.unpack(fmt, bs)`: requires the buffer size to equal the
format size exactly, otherwise raises `struct.error` (modelled as `none`). -/
def structUnpack (f : List Tok) (bs : List Nat) : Option (List StructVal) :=
  if bs.length = structSize f then some (unpackFrom bs f 0) else none

/-! Enumerated domains from `enums.py`.  Every enum there assigns consecutive
codes starting at 0 except `MicroTuning`, whose codes are 0..22 and 128..139.
Each domain is the set of raw codes its `IntEnum` constructor accepts; the
decoded record stores the raw code itself. -/

def VoiceModeType.dom (n : Nat) : Bool := n ≤ 4
def VcoWave.dom (n : Nat) : Bool := n ≤ 2
def MultiOscType.dom (n : Nat) : Bool := n ≤ 2
def MultiOscNoise.dom (n : Nat) : Bool := n ≤ 3
def MultiOscVPM.dom (n : Nat) : Bool := n ≤ 15
def EGTarget.dom (n : Nat) : Bool := n ≤ 2
def ModFxType.dom (n : Nat) : Bool := n ≤ 5
def ModFxChorus.dom (n : Nat) : Bool := n ≤ 7
def ModFxEnsemble.dom (n : Nat) : Bool := n ≤ 2
def ModFxPhaser.dom (n : Nat) : Bool := n ≤ 7
def ModFxFlanger.dom (n : Nat) : Bool := n ≤ 7
def DelaySubType.dom (n : Nat) : Bool := n ≤ 19
def ReverbSubType.dom (n : Nat) : Bool := n ≤ 17
def AssignTarget.dom (n : Nat) : Bool := n ≤ 28
def CVInMode.dom (n : Nat) : Bool := n ≤ 2
def MicroTuning.dom (n : Nat) : Bool := n ≤ 22 || (128 ≤ n && n ≤ 139)
def LFOTargetOsc.dom (n : Nat) : Bool := n ≤ 3
def LFOMode.dom (n : Nat) : Bool := n ≤ 2
def LFOTarget.dom (n : Nat) : Bool := n ≤ 2
def MultiRouting.dom (n : Nat) : Bool := n ≤ 1
def PortamentoMode.dom (n : Nat) : Bool := n ≤ 1
def UserParamType.dom (n : Nat) : Bool := n ≤ 3

/-- Python `SomeEnum(n)`: returns the code if it is in the enum's domain and
raises `ValueError` otherwise. -/
def enumCheck (dom : Nat → Bool) (n : Nat) : Except ParseError Nat :=
  if dom n then .ok n else .error (.unknownEnumValue n)

/-- Python `bytes.decode("ascii")` followed by `.rstrip("\x00")`: fails when a
byte exceeds 127, otherwise strips trailing zero bytes.  The decoded string is
kept as its list of byte values. -/
def asciiDecode (bs : List Nat) : Except ParseError (List Nat) :=
  if bs.all (· < 128) then .ok ((bs.reverse.dropWhile (· = 0)).reverse)
  else .error .asciiError

/-- The decoded record (`ProgramData` in `program_data.py`) with that file's
field order and defaults.  Enum-typed fields hold the raw code (`GATE_TIME`,
`PERCENT_TYPE`, `NONE`, `SQR`, `HALL`, ... are code 0; `LFOMode.NORMAL` is 1);
optional strings hold the decoded byte list. -/
structure ProgramData where
  header : Option (List Nat) := none
  program_name : Option (List Nat) := none
  octave : Nat := 0
  portamento : Nat := 0
  key_trig : Bool := false
  voice_mode_depth : Nat := 0
  voice_mode_type : Nat := 0
  vco1_wave : Nat := 0
  vco1_octave : Nat := 0
  vco1_pitch : Nat := 0
  vco1_shape : Nat := 0
  vco2_wave : Nat := 0
  vco2_octave : Nat := 0
  vco2_pitch : Nat := 0
  vco2_shape : Nat := 0
  oscillator_sync : Bool := false
  ring_mod : Bool := false
  cross_mod_depth : Nat := 0
  multi_osc_type : Nat := 0
  selected_multi_osc_noise : Nat := 0
  selected_multi_osc_vpm : Nat := 0
  selected_multi_osc_user : Nat := 0
  shape_noise : Nat := 0
  shape_vpm : Nat := 0
  shape_user : Nat := 0
  shift_shape_noise : Nat := 0
  shift_shape_vpm : Nat := 0
  shift_shape_user : Nat := 0
  vco1_level : Nat := 0
  vco2_level : Nat := 0
  multi_level : Nat := 0
  filter_cutoff : Nat := 0
  filter_resonance : Nat := 0
  filter_cutoff_drive : Nat := 0
  filter_cutoff_keyboard_track : Nat := 0
  amp_eg_attack : Nat := 0
  amp_eg_decay : Nat := 0
  amp_eg_sustain : Nat := 0
  amp_eg_release : Nat := 0
  eg_attack : Nat := 0
  eg_decay : Nat := 0
  eg_int : Nat := 0
  eg_target : Nat := 0
  lfo_wave : Nat := 0
  lfo_mode : Nat := 1
  lfo_rate : Nat := 0
  lfo_int : Nat := 0
  lfo_target : Nat := 0
  mod_fx_on_off : Bool := false
  mod_fx_type : Nat := 0
  mod_fx_chorus : Nat := 0
  mod_fx_ensemble : Nat := 0
  mod_fx_phaser : Nat := 0
  mod_fx_flanger : Nat := 0
  mod_fx_user : Nat := 0
  mod_fx_time : Nat := 0
  mod_fx_depth : Nat := 0
  delay_on_off : Bool := false
  delay_sub_type : Nat := 0
  delay_time : Nat := 0
  delay_depth : Nat := 0
  reverb_on_off : Bool := false
  reverb_sub_type : Nat := 0
  reverb_time : Nat := 0
  reverb_depth : Nat := 0
  bend_range_plus : Nat := 0
  bend_range_minus : Nat := 0
  joystick_assign_plus : Nat := 0
  joystick_range_plus : Nat := 0
  joystick_assign_minus : Nat := 0
  joystick_range_minus : Nat := 0
  cv_in_mode : Nat := 0
  cv_in1_assign : Nat := 0
  cv_in1_range : Nat := 0
  cv_in2_assign : Nat := 0
  cv_in2_range : Nat := 0
  micro_tuning : Nat := 0
  scale_key : Nat := 0
  program_tuning : Nat := 0
  lfo_key_sync : Bool := false
  lfo_voice_sync : Bool := false
  lfo_target_osc : Nat := 0
  cutoff_velocity : Nat := 0
  amp_velocity : Nat := 0
  multi_octave : Nat := 0
  multi_routing : Nat := 0
  eg_legato : Bool := false
  portamento_mode : Nat := 0
  portamento_bpm_sync : Bool := false
  program_level : Nat := 72
  vpm_parameter1_feedback : Nat := 100
  vpm_parameter2_noise_depth : Nat := 100
  vpm_parameter3_shape_mod_int : Nat := 100
  vpm_parameter4_mod_attack : Nat := 100
  vpm_parameter5_mod_decay : Nat := 100
  vpm_parameter6_mod_key_track : Nat := 100
  user_param1 : Nat := 0
  user_param2 : Nat := 0
  user_param3 : Nat := 0
  user_param4 : Nat := 0
  user_param5 : Nat := 0
  user_param6 : Nat := 0
  user_param56_type : Nat := 0
  user_param1234_type : Nat := 0
  user_param1_type : Nat := 0
  user_param2_type : Nat := 0
  user_param3_type : Nat := 0
  user_param4_type : Nat := 0
  user_param5_type : Nat := 0
  user_param6_type : Nat := 0
  program_transpose : Nat := 13
  delay_dry_wet : Nat := 0
  reverb_dry_wet : Nat := 0
  midi_after_touch_assign : Nat := 0
  program_end_marker : Option (List Nat) := none

/-- Line 125 of `binary_parser.py`:
`ModFxType(result[49]) if result[49] > 0 else ModFxType.NONE` — a strict
conversion guarded so that code 0 maps to `NONE` (also code 0). -/
def modFxTypeCheck (r : Nat) : Except ParseError Nat :=
  if 0 < r then enumCheck ModFxType.dom r else pure 0

/-- Lines 203-211 of `binary_parser.py`: when the buffer extends past offset
148, read the packed selector byte at offset 148 and split it with the same
2-bit masking (`u & 0x3`, `(u >> 2) & 0x3`); the masked codes are always in
the `UserParamType` domain, so the guarded block cannot fail.  Returns
(user_param56_type, user_param5_type, user_param6_type), with the dataclass
defaults when the buffer is too short. -/
def u56Of (data : List Nat) : Nat × Nat × Nat :=
  if 148 < data.length then
    let u := data.getD 148 0
    (u, u % 4, u / 4 % 4)
  else (0, 0, 0)

/-- Lines 216-224 of `binary_parser.py`: when the buffer has at least 160
bytes, unpack `<HHB` from bytes 151-155.  The dry/wet assignments precede the
`AssignTarget` conversion of byte 155 inside the try block, so when that code
is out of domain the swallowed failure leaves only `midi_after_touch_assign`
at its default (`GATE_TIME` = 0).  Returns (delay_dry_wet, reverb_dry_wet,
midi_after_touch_assign). -/
def trailOf (data : List Nat) : Nat × Nat × Nat :=
  if 160 ≤ data.length then
    let d := data.getD 151 0 + 256 * data.getD 152 0
    let r := data.getD 153 0 + 256 * data.getD 154 0
    let m := data.getD 155 0
    if AssignTarget.dom m then (d, r, m) else (d, r, 0)
  else (0, 0, 0)

/-- Python `result[i]` read as an integer.  An out-of-range index is the
`IndexError` Python raises at that access.  A byte-string component where an
integer is expected is also reported here, whereas Python would store the
bytes object and only fail at its first integer use; that corner is
unreachable from `parse_binary` and no claim depends on it. -/
def resNum (result : List StructVal) (i : Nat) : Except ParseError Nat :=
  match result.get? i with
  | some (.num n) => .ok n
  | _ => .error .indexError

/-- Python `result[i]` read as a byte string, as in `result[0].decode`. -/
def resStr (result : List StructVal) (i : Nat) : Except ParseError (List Nat) :=
  match result.get? i with
  | some (.str s) => .ok s
  | _ => .error .indexError

/-- Lines 53-229 of `binary_parser.py`: build a `ProgramData` from the unpack
result tuple and the raw buffer.  Accesses into the result tuple and the
fallible conversions (ASCII decodes and strict enum constructor calls) are
sequenced in source statement order, so the first failure is the one
reported, exactly as in Python; the pure integer assignments between them
cannot fail and are gathered into the final record literal.  The conversions
`UserParamType(x & 0x3)` cannot fail because the mask keeps the code inside
the domain 0..3; they are kept as plain masked values.  The two trailing
blocks (lines 203-211 and 216-224) swallow their own failures: the dry/wet
assignments happen before the `AssignTarget` conversion of byte 155, so they
survive even when that conversion fails, and the selector fields keep their
defaults in that case. -/
def mapFields (result : List StructVal) (data : List Nat) : Except ParseError ProgramData := do
  let s0 ← resStr result 0
  let header ← asciiDecode s0
  let s1 ← resStr result 1
  let program_name ← asciiDecode s1
  let r2 ← resNum result 2
  let r3 ← resNum result 3
  let r4 ← resNum result 4
  let r5 ← resNum result 5
  let r6 ← resNum result 6
  let voice_mode_type ← enumCheck VoiceModeType.dom r6
  let r7 ← resNum result 7
  let vco1_wave ← enumCheck VcoWave.dom r7
  let r8 ← resNum result 8
  let r9 ← resNum result 9
  let r10 ← resNum result 10
  let r11 ← resNum result 11
  let vco2_wave ← enumCheck VcoWave.dom r11
  let r12 ← resNum result 12
  let r13 ← resNum result 13
  let r14 ← resNum result 14
  let r15 ← resNum result 15
  let r16 ← resNum result 16
  let r17 ← resNum result 17
  let r18 ← resNum result 18
  let multi_osc_type ← enumCheck MultiOscType.dom r18
  let r19 ← resNum result 19
  let selected_multi_osc_noise ← enumCheck MultiOscNoise.dom r19
  let r20 ← resNum result 20
  let selected_multi_osc_vpm ← enumCheck MultiOscVPM.dom r20
  let r21 ← resNum result 21
  let r22 ← resNum result 22
  let r23 ← resNum result 23
  let r24 ← resNum result 24
  let r25 ← resNum result 25
  let r26 ← resNum result 26
  let r27 ← resNum result 27
  let r28 ← resNum result 28
  let r29 ← resNum result 29
  let r30 ← resNum result 30
  let r31 ← resNum result 31
  let r32 ← resNum result 32
  let r33 ← resNum result 33
  let r34 ← resNum result 34
  let r35 ← resNum result 35
  let r36 ← resNum result 36
  let r37 ← resNum result 37
  let r38 ← resNum result 38
  let r39 ← resNum result 39
  let r40 ← resNum result 40
  let r41 ← resNum result 41
  let r42 ← resNum result 42
  let eg_target ← enumCheck EGTarget.dom r42
  let r43 ← resNum result 43
  let lfo_wave ← enumCheck VcoWave.dom r43
  let r44 ← resNum result 44
  let lfo_mode ← enumCheck LFOMode.dom r44
  let r45 ← resNum result 45
  let r46 ← resNum result 46
  let r47 ← resNum result 47
  let lfo_target ← enumCheck LFOTarget.dom r47
  let r48 ← resNum result 48
  let r49 ← resNum result 49
  let mod_fx_type ← modFxTypeCheck r49
  let r50 ← resNum result 50
  let mod_fx_chorus ← enumCheck ModFxChorus.dom r50
  let r51 ← resNum result 51
  let mod_fx_ensemble ← enumCheck ModFxEnsemble.dom r51
  let r52 ← resNum result 52
  let mod_fx_phaser ← enumCheck ModFxPhaser.dom r52
  let r53 ← resNum result 53
  let mod_fx_flanger ← enumCheck ModFxFlanger.dom r53
  let r54 ← resNum result 54
  let r55 ← resNum result 55
  let r56 ← resNum result 56
  let r57 ← resNum result 57
  let r58 ← resNum result 58
  let delay_sub_type ← enumCheck DelaySubType.dom r58
  let r59 ← resNum result 59
  let r60 ← resNum result 60
  let r61 ← resNum result 61
  let r62 ← resNum result 62
  let reverb_sub_type ← enumCheck ReverbSubType.dom r62
  let r63 ← resNum result 63
  let r64 ← resNum result 64
  let r65 ← resNum result 65
  let r66 ← resNum result 66
  let r67 ← resNum result 67
  let joystick_assign_plus ← enumCheck AssignTarget.dom r67
  let r68 ← resNum result 68
  let r69 ← resNum result 69
  let joystick_assign_minus ← enumCheck AssignTarget.dom r69
  let r70 ← resNum result 70
  let r71 ← resNum result 71
  let cv_in_mode ← enumCheck CVInMode.dom r71
  let r72 ← resNum result 72
  let cv_in1_assign ← enumCheck AssignTarget.dom r72
  let r73 ← resNum result 73
  let r74 ← resNum result 74
  let cv_in2_assign ← enumCheck AssignTarget.dom r74
  let r75 ← resNum result 75
  let r76 ← resNum result 76
  let micro_tuning ← enumCheck MicroTuning.dom r76
  let r77 ← resNum result 77
  let r78 ← resNum result 78
  let r79 ← resNum result 79
  let r80 ← resNum result 80
  let r81 ← resNum result 81
  let lfo_target_osc ← enumCheck LFOTargetOsc.dom r81
  let r82 ← resNum result 82
  let r83 ← resNum result 83
  let r84 ← resNum result 84
  let r85 ← resNum result 85
  let multi_routing ← enumCheck MultiRouting.dom r85
  let r86 ← resNum result 86
  let r87 ← resNum result 87
  let portamento_mode ← enumCheck PortamentoMode.dom r87
  let r88 ← resNum result 88
  let r89 ← resNum result 89
  let r90 ← resNum result 90
  let r91 ← resNum result 91
  let r92 ← resNum result 92
  let r93 ← resNum result 93
  let r94 ← resNum result 94
  let r95 ← resNum result 95
  let r96 ← resNum result 96
  let r97 ← resNum result 97
  let r98 ← resNum result 98
  let r99 ← resNum result 99
  let r100 ← resNum result 100
  let r101 ← resNum result 101
  let r102 ← resNum result 102
  let r103 ← resNum result 103
  let s104 ← resStr result 104
  let program_end_marker ← asciiDecode s104
  pure
    { header := some header
      program_name := some program_name
      octave := r2
      portamento := r3
      key_trig := r4 != 0
      voice_mode_depth := r5
      voice_mode_type := voice_mode_type
      vco1_wave := vco1_wave
      vco1_octave := r8
      vco1_pitch := r9
      vco1_shape := r10
      vco2_wave := vco2_wave
      vco2_octave := r12
      vco2_pitch := r13
      vco2_shape := r14
      oscillator_sync := r15 != 0
      ring_mod := r16 != 0
      cross_mod_depth := r17
      multi_osc_type := multi_osc_type
      selected_multi_osc_noise := selected_multi_osc_noise
      selected_multi_osc_vpm := selected_multi_osc_vpm
      selected_multi_osc_user := r21
      shape_noise := r22
      shape_vpm := r23
      shape_user := r24
      shift_shape_noise := r25
      shift_shape_vpm := r26
      shift_shape_user := r27
      vco1_level := r28
      vco2_level := r29
      multi_level := r30
      filter_cutoff := r31
      filter_resonance := r32
      filter_cutoff_drive := r33
      filter_cutoff_keyboard_track := r34
      amp_eg_attack := r35
      amp_eg_decay := r36
      amp_eg_sustain := r37
      amp_eg_release := r38
      eg_attack := r39
      eg_decay := r40
      eg_int := r41
      eg_target := eg_target
      lfo_wave := lfo_wave
      lfo_mode := lfo_mode
      lfo_rate := r45
      lfo_int := r46
      lfo_target := lfo_target
      mod_fx_on_off := r48 != 0
      mod_fx_type := mod_fx_type
      mod_fx_chorus := mod_fx_chorus
      mod_fx_ensemble := mod_fx_ensemble
      mod_fx_phaser := mod_fx_phaser
      mod_fx_flanger := mod_fx_flanger
      mod_fx_user := r54
      mod_fx_time := r55
      mod_fx_depth := r56
      delay_on_off := r57 != 0
      delay_sub_type := delay_sub_type
      delay_time := r59
      delay_depth := r60
      reverb_on_off := r61 != 0
      reverb_sub_type := reverb_sub_type
      reverb_time := r63
      reverb_depth := r64
      bend_range_plus := r65
      bend_range_minus := r66
      joystick_assign_plus := joystick_assign_plus
      joystick_range_plus := r68
      joystick_assign_minus := joystick_assign_minus
      joystick_range_minus := r70
      cv_in_mode := cv_in_mode
      cv_in1_assign := cv_in1_assign
      cv_in1_range := r73
      cv_in2_assign := cv_in2_assign
      cv_in2_range := r75
      micro_tuning := micro_tuning
      scale_key := r77
      program_tuning := r78
      lfo_key_sync := r79 != 0
      lfo_voice_sync := r80 != 0
      lfo_target_osc := lfo_target_osc
      cutoff_velocity := r82
      amp_velocity := r83
      multi_octave := r84
      multi_routing := multi_routing
      eg_legato := r86 != 0
      portamento_mode := portamento_mode
      portamento_bpm_sync := r88 != 0
      program_level := r89
      vpm_parameter1_feedback := r90
      vpm_parameter2_noise_depth := r91
      vpm_parameter3_shape_mod_int := r92
      vpm_parameter4_mod_attack := r93
      vpm_parameter5_mod_decay := r94
      vpm_parameter6_mod_key_track := r95
      user_param1 := r96
      user_param2 := r97
      user_param3 := r98
      user_param4 := r99
      user_param5 := r100
      user_param6 := r101
      user_param56_type := (u56Of data).1
      user_param1234_type := r102
      user_param1_type := r102 % 4
      user_param2_type := r102 / 4 % 4
      user_param3_type := r102 / 16 % 4
      user_param4_type := r102 / 64 % 4
      user_param5_type := (u56Of data).2.1
      user_param6_type := (u56Of data).2.2
      program_transpose := r103
      delay_dry_wet := (trailOf data).1
      reverb_dry_wet := (trailOf data).2.1
      midi_after_touch_assign := (trailOf data).2.2
      program_end_marker := some program_end_marker }

/-- `ProgramParser.parse_binary` (lines 39-229): reject buffers shorter than
160 bytes, then `struct.unpack` the first 160 bytes with `structFmt` (turning
`struct.error` into the "Failed to parse binary data" `ValueError`, the spec's
`MalformedLayout`), then map the result tuple to a record. -/
def parse_binary (data : List Nat) : Except ParseError ProgramData :=
  if data.length < 160 then .error .tooShort
  else
    match structUnpack structFmt (data.take 160) with
    | none => .error .malformedLayout
    | some result => mapFields result data

/-- Input to the container-unwrap layer: either a byte stream that the
`zipfile` module rejects (`BadZipFile`) or an archive whose entries are
(name, content) pairs in archive order. -/
inductive ZipInput where
  | badZip (raw : List Nat)
  | zip (entries : List (String × List Nat))

/-- Python `f"{n:03d}"`: decimal, zero-padded to at least three digits. -/
def pad3 (n : Nat) : String :=
  if n < 10 then "00" ++ toString n
  else if n < 100 then "0" ++ toString n
  else toString n

/-- Entry name looked up by `parse_file`. -/
def progFilename (n : Nat) : String := "Prog_" ++ pad3 n ++ ".prog_bin"

/-- Python `zf.read(name)`: content of the first entry with that name, if
any (`KeyError` otherwise, modelled as `none`). -/
def zipRead (entries : List (String × List Nat)) (name : String) : Option (List Nat) :=
  (entries.find? (fun e => e.1 = name)).map (fun e => e.2)

/-- `ProgramParser.parse_file` (lines 16-36), with the result of opening the
file already abstracted into a `ZipInput`: select `Prog_{n:03d}.prog_bin`,
fall back to the first listed entry, raise "No program files found in archive"
on an empty archive, and parse a non-archive file as a raw record. -/
def parse_file (input : ZipInput) (program_number : Nat) : Except ParseError ProgramData :=
  match input with
  | .badZip raw => parse_binary raw
  | .zip entries =>
    match zipRead entries (progFilename program_number) with
    | some content => parse_binary content
    | none =>
      match entries with
      | [] => .error .noEntries
      | e :: _ => parse_binary e.2

/-- `ProgramParser.parse_from_upload` (lines 231-248).  When the upload is an
archive with at least one entry, prefer the first `.prog_bin` entry, else the
first entry.  When the archive has no entries the `if files:` test fails and
the function falls off the end of the `with` block: Python returns `None`
without raising, modelled as `.ok none`. -/
def parse_from_upload (input : ZipInput) : Except ParseError (Option ProgramData) :=
  match input with
  | .badZip raw => (parse_binary raw).map some
  | .zip entries =>
    match entries with
    | [] => .ok none
    | e :: _ =>
      let prog_files := entries.filter (fun en => en.1.endsWith ".prog_bin")
      let binary_data :=
        match prog_files with
        | [] => e.2
        | pf :: _ => pf.2
      (parse_binary binary_data).map some

/-- Round the exact fraction `num / den` (with `den > 0`) to the nearest
integer, ties to even: the rounding Python applies when formatting a float
with `".0f"`. -/
def roundHalfEvenFrac (num den : ℤ) : ℤ :=
  let f : ℤ := Int.fdiv num den
  let r2 : ℤ := 2 * (num - f * den)
  if r2 < den then f
  else if den < r2 then f + 1
  else if f % 2 = 0 then f else f + 1

/-- Python integer formatting (also `f"{t:.0f}"` on an integer-valued float). -/
def fmtI (t : ℤ) : String := toString t

/-- Python `f"{x:.1f}"` for a float whose exact value is `tenths / 10`: one
decimal place, minus sign for negatives. -/
def fmtTenths (tenths : ℤ) : String :=
  (if tenths < 0 then "-" else "") ++
    toString (tenths.natAbs / 10) ++ "." ++ toString (tenths.natAbs % 10)

/-- `DisplayHelper.pitch_cents` (lines 254-276 of `binary_parser.py`), branch
for branch in source order (earlier branch wins at shared edges).  The two
coarse bands compute `n * 944 / 352 ± 256` in Python float arithmetic and
format with `".0f"`; they are modelled as the exact fraction
`(n * 944 ± 256 * 352) / 352` rounded half-to-even.  This is faithful: for
integer `n` the computed double is within 1e-10 of that fraction, and the
fraction's distance from a rounding boundary is either at least `1/44` (far
beyond the float error) or exactly 0 — the latter only when `11 ∣ n`, which
makes the quotient dyadic and hence the double exact, so Python applies the
same tie-to-even rounding.  The other formatted branches are integer valued
and format exactly. -/
def pitch_cents (value : ℤ) : String :=
  if 0 ≤ value ∧ value ≤ 4 then "-1200C"
  else if 4 ≤ value ∧ value ≤ 356 then
    fmtI (roundHalfEvenFrac ((value - 356) * 944 - 256 * 352) 352) ++ "C"
  else if 356 ≤ value ∧ value ≤ 476 then fmtI ((value - 476) * 2 - 16) ++ "C"
  else if 476 ≤ value ∧ value ≤ 492 then toString (value - 492) ++ "C"
  else if 492 ≤ value ∧ value ≤ 532 then "0C"
  else if 532 ≤ value ∧ value ≤ 548 then toString (value - 532) ++ "C"
  else if 548 ≤ value ∧ value ≤ 668 then fmtI ((value - 548) * 2 + 16) ++ "C"
  else if 668 ≤ value ∧ value ≤ 1020 then
    fmtI (roundHalfEvenFrac ((value - 668) * 944 + 256 * 352) 352) ++ "C"
  else if 1020 ≤ value ∧ value ≤ 1023 then "1200C"
  else toString value ++ "C"

/-- `DisplayHelper.eg_int_percent` (lines 278-292), scaled by
`0x40000000 = 2^30`.  Every branch of the Python function returns an exact
multiple of `2^-30`: the flat branches are integers, and the quadratic
branches divide an integer below `2^53` by `0x40000000`, a dyadic value that
double precision represents exactly.  The function is therefore modelled by
that integer numerator: `eg_int_percent_scaled v` equals the Python float
times `0x40000000`, with order and equality of outputs preserved. -/
def eg_int_percent_scaled (value : ℤ) : ℤ :=
  if 0 ≤ value ∧ value ≤ 11 then -100 * 0x40000000
  else if 11 ≤ value ∧ value ≤ 492 then -((492 - value) * (492 - value) * 4641 * 100)
  else if 492 ≤ value ∧ value ≤ 532 then 0
  else if 532 ≤ value ∧ value ≤ 1013 then (value - 532) * (value - 532) * 4641 * 100
  else if 1013 ≤ value ∧ value ≤ 1023 then 100 * 0x40000000
  else 0

/-- `DisplayHelper.program_level_decibel` (lines 375-380).  For integer inputs
`db = (value - 12) / 5.0 - 18.0` is within float error of the exact value
`(2 * (value - 12) - 180) / 10`, an exact multiple of 1/10, so the `".1f"`
formatting of the float prints exactly those tenths, and `db > 0` holds
exactly when the tenths are positive. -/
def program_level_decibel (value : ℤ) : String :=
  let tenths : ℤ := 2 * (value - 12) - 180
  let sign := if 0 < tenths then "+" else ""
  sign ++ fmtTenths tenths ++ "dB"

/-- All-zero 160-byte buffer. -/
def zeros160 : List Nat := List.replicate 160 0

/-- A 159-byte buffer, one byte short of the minimum record size. -/
def shortBuf : List Nat := List.replicate 159 0

/-- The input of the repository test `test_parse_binary_malformed`:
`b"INVALID"` followed by 160 zero bytes. -/
def wrongMagicBuf : List Nat := [73, 78, 86, 65, 76, 73, 68] ++ List.replicate 160 0

/-- The input of the repository test `test_user_param_type_parsing`: 160
bytes, "PROG" at offset 0, packed selector byte 228 (binary 11100100) at
offset 102, "PRED" at offset 156. -/
def tcPackedBuf : List Nat :=
  [80, 82, 79, 71] ++ List.replicate 98 0 ++ [228] ++ List.replicate 53 0 ++ [80, 82, 69, 68]

/-- A 160-byte buffer whose only nonzero byte is the out-of-domain assignment
code 29 at offset 110. -/
def joyBuf : List Nat := List.replicate 110 0 ++ [29] ++ List.replicate 49 0

/-- A 160-byte buffer carrying little-endian 16-bit values 1 and 2 at offsets
151-152 and 153-154 and the out-of-domain assignment code 29 at offset 155. -/
def dryWetBuf : List Nat := List.replicate 151 0 ++ [1, 0, 2, 0, 29] ++ List.replicate 4 0

/-- An unpack result tuple of the shape lines 53-229 expect: "PROG", a
zero-padded 12-byte name, 102 zero integers and "PRED". -/
def zeroResult : List StructVal :=
  StructVal.str [80, 82, 79, 71] :: StructVal.str (List.replicate 12 0) ::
    (List.replicate 102 (StructVal.num 0) ++ [StructVal.str [80, 82, 69, 68]])

/-- The record `mapFields` produces from `zeroResult` and `zeros160`: every
decoded field zero (overriding the nonzero dataclass defaults), magic strings
decoded and null-stripped. -/
def zeroProg : ProgramData :=
  { header := some [80, 82, 79, 71]
    program_name := some []
    lfo_mode := 0
    program_level := 0
    vpm_parameter1_feedback := 0
    vpm_parameter2_noise_depth := 0
    vpm_parameter3_shape_mod_int := 0
    vpm_parameter4_mod_attack := 0
    vpm_parameter5_mod_decay := 0
    vpm_parameter6_mod_key_track := 0
    program_transpose := 0
    program_end_marker := some [80, 82, 69, 68] }

/-- The format of line 49 consumes 149 bytes. -/
theorem structSize_structFmt : structSize structFmt = 149 := by decide

/-- Below 160 bytes the decoder raises the "Data too short" error. -/
theorem parse_lt160 {data : List Nat} (h : data.length < 160) :
    parse_binary data = .error .tooShort := by
  simp [parse_binary, h]

/-- At 160 bytes and above the unpack of `data[:160]` always fails, because
the 160-byte slice never equals the format's 149-byte size. -/
theorem parse_ge160 {data : List Nat} (h : 160 ≤ data.length) :
    parse_binary data = .error .malformedLayout := by
  have h1 : ¬ data.length < 160 := Nat.not_lt.mpr h
  have h2 : (data.take 160).length = 160 := by
    simp [List.length_take, Nat.min_eq_left h]
  simp [parse_binary, h1, structUnpack, h2, structSize_structFmt]

/-- A successful Python enum conversion keeps the raw code, which therefore
lies in the enum's domain. -/
theorem enumCheck_ok {dom : Nat → Bool} {n m : Nat} (h : enumCheck dom n = .ok m) :
    dom m = true := by
  unfold enumCheck at h
  split at h
  next hd => injection h with h2; subst h2; exact hd
  next => cases h

/-- Bind on `Except` yields `ok` exactly when both steps do. -/
theorem bindOk {ε α β : Type} {x : Except ε α} {f : α → Except ε β} {b : β} :
    x >>= f = .ok b ↔ ∃ a, x = .ok a ∧ f a = .ok b := by
  cases x <;> simp [Bind.bind, Except.bind]

/-- Pure on `Except` is `ok`. -/
theorem pureOk {ε α : Type} {a b : α} : (pure a : Except ε α) = .ok b ↔ a = b := by
  constructor
  · intro h; injection h
  · intro h; subst h; rfl

/-- C1: every buffer shorter than 160 bytes makes `parse_binary` fail with the
TooShort error and yields no record, and on every buffer of length at least
160 the TooShort error is never raised. -/
theorem c1_too_short_iff (data : List Nat) :
    (data.length < 160 →
      parse_binary data = .error .tooShort ∧ ∀ p, parse_binary data ≠ .ok p) ∧
    (160 ≤ data.length → parse_binary data ≠ .error .tooShort) := by
  refine ⟨fun h => ⟨parse_lt160 h, fun p hp => ?_⟩, fun h hp => ?_⟩
  · rw [parse_lt160 h] at hp
    cases hp
  · rw [parse_ge160 h] at hp
    simp at hp

/-- Witness for C1 at concrete inputs: the 159-byte buffer fails with
TooShort, the 160-byte buffer does not raise TooShort. -/
theorem c1_witness :
    parse_binary shortBuf = .error .tooShort ∧
    parse_binary zeros160 ≠ .error .tooShort :=
  ⟨((c1_too_short_iff shortBuf).1 (by decide)).1,
   (c1_too_short_iff zeros160).2 (by decide)⟩

/-- C2: buffers of length at least 160 on which `parse_binary` fails with the
MalformedLayout error exist; indeed the fixed-layout extraction can never
consume the 160-byte slice (the format consumes 149 bytes), so every such
buffer — in particular any buffer whose first bytes are not the expected
magic — fails with MalformedLayout. -/
theorem c2_malformed_layout (data : List Nat) (h : 160 ≤ data.length) :
    parse_binary data = .error .malformedLayout :=
  parse_ge160 h

/-- Witness for C2: the repository test's wrong-magic buffer (`b"INVALID"`
followed by 160 zero bytes) fails with MalformedLayout. -/
theorem c2_witness : parse_binary wrongMagicBuf = .error .malformedLayout :=
  c2_malformed_layout wrongMagicBuf (by decide)

/-- Counterexample to C3: a 160-byte buffer carrying the out-of-domain
assignment code 29 (greater than the largest `AssignTarget` code 28) makes
`parse_binary` fail outright, against the claim that decode does not fail on
such a code; no record preserving the raw code is produced. -/
theorem c3_counterexample : parse_binary joyBuf = .error .malformedLayout :=
  parse_ge160 (by decide)

set_option maxHeartbeats 2000000 in
/-- C3 amended: the CV and joystick assignment-style fields are never decoded
best-effort.  `parse_binary` returns no record at all for any buffer of
length at least 160, and the field-mapping code converts
`joystick_assign_plus`, `joystick_assign_minus`, `cv_in_mode`,
`cv_in1_assign` and `cv_in2_assign` strictly: whenever it produces a record,
each of those raw codes lies inside the documented enumeration domain, so an
out-of-domain code makes the conversion fail rather than being preserved
(only `midi_after_touch_assign`, handled in the trailing try/except, is
best-effort). -/
theorem c3_amended_strict_assign :
    (∀ data : List Nat, 160 ≤ data.length → ∀ p, parse_binary data ≠ .ok p) ∧
    (∀ result data p, mapFields result data = .ok p →
      AssignTarget.dom p.joystick_assign_plus = true ∧
      AssignTarget.dom p.joystick_assign_minus = true ∧
      CVInMode.dom p.cv_in_mode = true ∧
      AssignTarget.dom p.cv_in1_assign = true ∧
      AssignTarget.dom p.cv_in2_assign = true) := by
  constructor
  · intro data h p hp
    rw [parse_ge160 h] at hp
    cases hp
  · intro result data p h
    unfold mapFields at h
    obtain ⟨s0, _, h⟩ := bindOk.mp h
    obtain ⟨hdr, _, h⟩ := bindOk.mp h
    obtain ⟨s1, _, h⟩ := bindOk.mp h
    obtain ⟨pnm, _, h⟩ := bindOk.mp h
    obtain ⟨r2, _, h⟩ := bindOk.mp h
    obtain ⟨r3, _, h⟩ := bindOk.mp h
    obtain ⟨r4, _, h⟩ := bindOk.mp h
    obtain ⟨r5, _, h⟩ := bindOk.mp h
    obtain ⟨r6, _, h⟩ := bindOk.mp h
    obtain ⟨e6, _, h⟩ := bindOk.mp h
    obtain ⟨r7, _, h⟩ := bindOk.mp h
    obtain ⟨e7, _, h⟩ := bindOk.mp h
    obtain ⟨r8, _, h⟩ := bindOk.mp h
    obtain ⟨r9, _, h⟩ := bindOk.mp h
    obtain ⟨r10, _, h⟩ := bindOk.mp h
    obtain ⟨r11, _, h⟩ := bindOk.mp h
    obtain ⟨e11, _, h⟩ := bindOk.mp h
    obtain ⟨r12, _, h⟩ := bindOk.mp h
    obtain ⟨r13, _, h⟩ := bindOk.mp h
    obtain ⟨r14, _, h⟩ := bindOk.mp h
    obtain ⟨r15, _, h⟩ := bindOk.mp h
    obtain ⟨r16, _, h⟩ := bindOk.mp h
    obtain ⟨r17, _, h⟩ := bindOk.mp h
    obtain ⟨r18, _, h⟩ := bindOk.mp h
    obtain ⟨e18, _, h⟩ := bindOk.mp h
    obtain ⟨r19, _, h⟩ := bindOk.mp h
    obtain ⟨e19, _, h⟩ := bindOk.mp h
    obtain ⟨r20, _, h⟩ := bindOk.mp h
    obtain ⟨e20, _, h⟩ := bindOk.mp h
    obtain ⟨r21, _, h⟩ := bindOk.mp h
    obtain ⟨r22, _, h⟩ := bindOk.mp h
    obtain ⟨r23, _, h⟩ := bindOk.mp h
    obtain ⟨r24, _, h⟩ := bindOk.mp h
    obtain ⟨r25, _, h⟩ := bindOk.mp h
    obtain ⟨r26, _, h⟩ := bindOk.mp h
    obtain ⟨r27, _, h⟩ := bindOk.mp h
    obtain ⟨r28, _, h⟩ := bindOk.mp h
    obtain ⟨r29, _, h⟩ := bindOk.mp h
    obtain ⟨r30, _, h⟩ := bindOk.mp h
    obtain ⟨r31, _, h⟩ := bindOk.mp h
    obtain ⟨r32, _, h⟩ := bindOk.mp h
    obtain ⟨r33, _, h⟩ := bindOk.mp h
    obtain ⟨r34, _, h⟩ := bindOk.mp h
    obtain ⟨r35, _, h⟩ := bindOk.mp h
    obtain ⟨r36, _, h⟩ := bindOk.mp h
    obtain ⟨r37, _, h⟩ := bindOk.mp h
    obtain ⟨r38, _, h⟩ := bindOk.mp h
    obtain ⟨r39, _, h⟩ := bindOk.mp h
    obtain ⟨r40, _, h⟩ := bindOk.mp h
    obtain ⟨r41, _, h⟩ := bindOk.mp h
    obtain ⟨r42, _, h⟩ := bindOk.mp h
    obtain ⟨e42, _, h⟩ := bindOk.mp h
    obtain ⟨r43, _, h⟩ := bindOk.mp h
    obtain ⟨e43, _, h⟩ := bindOk.mp h
    obtain ⟨r44, _, h⟩ := bindOk.mp h
    obtain ⟨e44, _, h⟩ := bindOk.mp h
    obtain ⟨r45, _, h⟩ := bindOk.mp h
    obtain ⟨r46, _, h⟩ := bindOk.mp h
    obtain ⟨r47, _, h⟩ := bindOk.mp h
    obtain ⟨e47, _, h⟩ := bindOk.mp h
    obtain ⟨r48, _, h⟩ := bindOk.mp h
    obtain ⟨r49, _, h⟩ := bindOk.mp h
    obtain ⟨e49, _, h⟩ := bindOk.mp h
    obtain ⟨r50, _, h⟩ := bindOk.mp h
    obtain ⟨e50, _, h⟩ := bindOk.mp h
    obtain ⟨r51, _, h⟩ := bindOk.mp h
    obtain ⟨e51, _, h⟩ := bindOk.mp h
    obtain ⟨r52, _, h⟩ := bindOk.mp h
    obtain ⟨e52, _, h⟩ := bindOk.mp h
    obtain ⟨r53, _, h⟩ := bindOk.mp h
    obtain ⟨e53, _, h⟩ := bindOk.mp h
    obtain ⟨r54, _, h⟩ := bindOk.mp h
    obtain ⟨r55, _, h⟩ := bindOk.mp h
    obtain ⟨r56, _, h⟩ := bindOk.mp h
    obtain ⟨r57, _, h⟩ := bindOk.mp h
    obtain ⟨r58, _, h⟩ := bindOk.mp h
    obtain ⟨e58, _, h⟩ := bindOk.mp h
    obtain ⟨r59, _, h⟩ := bindOk.mp h
    obtain ⟨r60, _, h⟩ := bindOk.mp h
    obtain ⟨r61, _, h⟩ := bindOk.mp h
    obtain ⟨r62, _, h⟩ := bindOk.mp h
    obtain ⟨e62, _, h⟩ := bindOk.mp h
    obtain ⟨r63, _, h⟩ := bindOk.mp h
    obtain ⟨r64, _, h⟩ := bindOk.mp h
    obtain ⟨r65, _, h⟩ := bindOk.mp h
    obtain ⟨r66, _, h⟩ := bindOk.mp h
    obtain ⟨r67, _, h⟩ := bindOk.mp h
    obtain ⟨e67, hjap, h⟩ := bindOk.mp h
    obtain ⟨r68, _, h⟩ := bindOk.mp h
    obtain ⟨r69, _, h⟩ := bindOk.mp h
    obtain ⟨e69, hjam, h⟩ := bindOk.mp h
    obtain ⟨r70, _, h⟩ := bindOk.mp h
    obtain ⟨r71, _, h⟩ := bindOk.mp h
    obtain ⟨e71, hcvm, h⟩ := bindOk.mp h
    obtain ⟨r72, _, h⟩ := bindOk.mp h
    obtain ⟨e72, hcv1, h⟩ := bindOk.mp h
    obtain ⟨r73, _, h⟩ := bindOk.mp h
    obtain ⟨r74, _, h⟩ := bindOk.mp h
    obtain ⟨e74, hcv2, h⟩ := bindOk.mp h
    obtain ⟨r75, _, h⟩ := bindOk.mp h
    obtain ⟨r76, _, h⟩ := bindOk.mp h
    obtain ⟨e76, _, h⟩ := bindOk.mp h
    obtain ⟨r77, _, h⟩ := bindOk.mp h
    obtain ⟨r78, _, h⟩ := bindOk.mp h
    obtain ⟨r79, _, h⟩ := bindOk.mp h
    obtain ⟨r80, _, h⟩ := bindOk.mp h
    obtain ⟨r81, _, h⟩ := bindOk.mp h
    obtain ⟨e81, _, h⟩ := bindOk.mp h
    obtain ⟨r82, _, h⟩ := bindOk.mp h
    obtain ⟨r83, _, h⟩ := bindOk.mp h
    obtain ⟨r84, _, h⟩ := bindOk.mp h
    obtain ⟨r85, _, h⟩ := bindOk.mp h
    obtain ⟨e85, _, h⟩ := bindOk.mp h
    obtain ⟨r86, _, h⟩ := bindOk.mp h
    obtain ⟨r87, _, h⟩ := bindOk.mp h
    obtain ⟨e87, _, h⟩ := bindOk.mp h
    obtain ⟨r88, _, h⟩ := bindOk.mp h
    obtain ⟨r89, _, h⟩ := bindOk.mp h
    obtain ⟨r90, _, h⟩ := bindOk.mp h
    obtain ⟨r91, _, h⟩ := bindOk.mp h
    obtain ⟨r92, _, h⟩ := bindOk.mp h
    obtain ⟨r93, _, h⟩ := bindOk.mp h
    obtain ⟨r94, _, h⟩ := bindOk.mp h
    obtain ⟨r95, _, h⟩ := bindOk.mp h
    obtain ⟨r96, _, h⟩ := bindOk.mp h
    obtain ⟨r97, _, h⟩ := bindOk.mp h
    obtain ⟨r98, _, h⟩ := bindOk.mp h
    obtain ⟨r99, _, h⟩ := bindOk.mp h
    obtain ⟨r100, _, h⟩ := bindOk.mp h
    obtain ⟨r101, _, h⟩ := bindOk.mp h
    obtain ⟨r102, _, h⟩ := bindOk.mp h
    obtain ⟨r103, _, h⟩ := bindOk.mp h
    obtain ⟨s104, _, h⟩ := bindOk.mp h
    obtain ⟨pem, _, h⟩ := bindOk.mp h
    obtain rfl := pureOk.mp h
    exact ⟨enumCheck_ok hjap, enumCheck_ok hjam, enumCheck_ok hcvm,
      enumCheck_ok hcv1, enumCheck_ok hcv2⟩

set_option maxHeartbeats 2000000 in
/-- Witness for C3: both parts of the amended statement applied at concrete
inputs — the all-zero 160-byte buffer yields no record, and the mapping of
the all-zero result tuple succeeds with all five assignment-style codes inside
their domains. -/
theorem c3_witness :
    parse_binary zeros160 ≠ .ok zeroProg ∧
    AssignTarget.dom zeroProg.joystick_assign_plus = true ∧
    CVInMode.dom zeroProg.cv_in_mode = true := by
  have h2 := c3_amended_strict_assign.2 zeroResult zeros160 zeroProg (by rfl)
  exact ⟨c3_amended_strict_assign.1 zeros160 (by decide) zeroProg, h2.1, h2.2.2.1⟩

/-- Counterexample to C4: `program_level_decibel 72` is not `"+0.0dB"` (the
formula `(72 - 12) / 5.0 - 18.0` gives `-6.0`). -/
theorem c4_counterexample : program_level_decibel 72 ≠ "+0.0dB" := by decide

/-- C4 amended: `program_level_decibel` computes `db = (v-12)/5.0 - 18.0`,
formats it to one decimal place with suffix `"dB"` and a `"+"` sign exactly
when `db` is positive (that is, exactly when `v > 102`), and in particular
maps 12 to `"-18.0dB"`, 132 to `"+6.0dB"` and 72 to `"-6.0dB"`. -/
theorem c4_amended_program_level :
    program_level_decibel 12 = "-18.0dB" ∧
    program_level_decibel 132 = "+6.0dB" ∧
    program_level_decibel 72 = "-6.0dB" ∧
    (∀ v : Nat, v < 256 →
      ((program_level_decibel v).data.head? = some '+' ↔ 102 < v) ∧
      (program_level_decibel v).data.reverse.take 2 = ['B', 'd']) := by
  refine ⟨by decide, by decide, by decide, by decide⟩

/-- Witness for C4 at a concrete input: level 120 is above 102 and formats
with an explicit plus sign. -/
theorem c4_witness : (program_level_decibel 120).data.head? = some '+' :=
  ((c4_amended_program_level.2.2.2 120 (by decide)).1).mpr (by decide)

/-- Counterexample to C5: at `v = 1013` the quadratic branch still applies
(its guard `532 ≤ v ≤ 1013` is checked before the flat branch), producing
`107374640100 / 2^30 ≈ 100.0004`, which exceeds 100 and exceeds the value at
`v = 1014`; so the function is not monotone, not bounded by 100, and not flat
at 100 from `v = 1013` on.  Values are scaled by `2^30`. -/
theorem c5_counterexample :
    100 * 0x40000000 < eg_int_percent_scaled 1013 ∧
    eg_int_percent_scaled 1014 < eg_int_percent_scaled 1013 := by
  refine ⟨by decide, by decide⟩

/-- C5 amended (values scaled by `2^30 = 0x40000000`): the transform maps 0 to
-100, 532 to 0 and 1023 to 100, is monotonically non-decreasing on 0..1012
and constant at 100 on 1014..1023, and stays within [-100, 100] everywhere on
0..1023 except the single point 1013, where it equals
`107374640100 / 2^30 ≈ 100.0004`. -/
theorem c5_amended_eg_int :
    eg_int_percent_scaled 0 = -100 * 0x40000000 ∧
    eg_int_percent_scaled 532 = 0 ∧
    eg_int_percent_scaled 1023 = 100 * 0x40000000 ∧
    (∀ v : Nat, v < 1013 → eg_int_percent_scaled v ≤ eg_int_percent_scaled (v + 1)) ∧
    (∀ v : Nat, v < 1024 → 1014 ≤ v → eg_int_percent_scaled v = 100 * 0x40000000) ∧
    (∀ v : Nat, v < 1024 → v ≠ 1013 →
      -100 * 0x40000000 ≤ eg_int_percent_scaled v ∧
        eg_int_percent_scaled v ≤ 100 * 0x40000000) ∧
    eg_int_percent_scaled 1013 = 107374640100 := by
  refine ⟨by decide, by decide, by decide, by decide, by decide, by decide, by decide⟩

/-- Witness for C5 at concrete inputs: monotone step at 500, flat value at
1020, bounded value at 700. -/
theorem c5_witness :
    eg_int_percent_scaled 500 ≤ eg_int_percent_scaled (500 + 1) ∧
    eg_int_percent_scaled 1020 = 100 * 0x40000000 :=
  ⟨c5_amended_eg_int.2.2.2.1 500 (by decide),
   c5_amended_eg_int.2.2.2.2.1 1020 (by decide) (by decide)⟩

/-- C6 evaluation: on an archive holding zero entries `parse_file` fails with
the NoEntries error, but `parse_from_upload` raises nothing and returns
Python `None` — a non-error result with no record. -/
theorem c6_empty_archive_eval :
    parse_file (.zip []) 0 = .error .noEntries ∧
    parse_from_upload (.zip []) = .ok none :=
  ⟨rfl, rfl⟩

/-- C7 evaluation: the written unpack format has 93 fields totalling 149
bytes, so the fixed 160-byte window never matches it and the repository
test's packed-selector buffer (selector byte 228 at offset 102, the layout the
test and the claim describe) is rejected with MalformedLayout instead of
being read at fixed offsets. -/
theorem c7_layout_eval :
    structSize structFmt = 149 ∧ structFmt.length = 93 ∧
    parse_binary tcPackedBuf = .error .malformedLayout :=
  ⟨by decide, by decide, parse_ge160 (by decide)⟩

/-- C8: `pitch_cents` saturates at `"-1200C"` for every `v ≤ 4` and at
`"1200C"` for every `1020 ≤ v ≤ 1023`, returns `"0C"` exactly on the whole
band `492 ≤ v ≤ 532`, and maps 0, 532 and 1023 to `"-1200C"`, `"0C"` and
`"1200C"`. -/
theorem c8_pitch_cents_bands :
    (∀ v : Nat, v < 5 → pitch_cents v = "-1200C") ∧
    (∀ v : Nat, v < 1024 → 1020 ≤ v → pitch_cents v = "1200C") ∧
    (∀ v : Nat, v < 533 → 492 ≤ v → pitch_cents v = "0C") ∧
    pitch_cents 0 = "-1200C" ∧ pitch_cents 532 = "0C" ∧ pitch_cents 1023 = "1200C" := by
  refine ⟨by decide, by decide, by decide, by decide, by decide, by decide⟩

/-- Witness for C8 at concrete inputs inside each quantified band. -/
theorem c8_witness :
    pitch_cents 3 = "-1200C" ∧ pitch_cents 1021 = "1200C" ∧ pitch_cents 500 = "0C" :=
  ⟨c8_pitch_cents_bands.1 3 (by decide),
   c8_pitch_cents_bands.2.1 1021 (by decide) (by decide),
   c8_pitch_cents_bands.2.2.1 500 (by decide) (by decide)⟩

/-- C9 evaluation: the packed-bitfield round-trip buffer of the repository
test (packed byte `0b11100100 = 228` at offset 102, magic "PROG"/"PRED") is
rejected with MalformedLayout — the unpack format consumes 149 bytes, never
the 160 supplied — instead of decoding to selectors (0, 1, 2, 3). -/
theorem c9_packed_roundtrip_eval : parse_binary tcPackedBuf = .error .malformedLayout :=
  parse_ge160 (by decide)

/-- C10 evaluation: a 160-byte buffer with dry/wet bytes at offsets 151-154
and the out-of-domain assignment code 29 at offset 155 is rejected with
MalformedLayout like every other buffer of length at least 160, so
`parse_binary` never returns the record with populated dry/wet fields that
the claim describes. -/
theorem c10_trailing_fields_eval : parse_binary dryWetBuf = .error .malformedLayout :=
  parse_ge160 (by decide)
